import Mathlib

/-!
Shallow embedding of the FloodWise dashboard (single-page React app).

Sources embedded:
- the Dashboard page (feature table `featureDefaults`, handlers
  `handleSliderChange`, `handleReset`, `handlePredict`, and the pieces of the
  rendered view that the properties refer to);
- the NotFound page (its `useEffect` that logs the attempted pathname).

Numbers flowing through the sliders are modelled as rationals `ℚ` (slider
steps include 0.1 and 0.5, so integers do not suffice).  JavaScript string
interpolation of a number `x` (`\x7b x \x7d` in a template literal) is modelled by
the executable rendering `jsNumChars : ℚ → List Char`, which prints the
numerator (and, for non-integral values, a `/` and the denominator) using
decimal digits; the properties below depend only on the alphabet of this
rendering, never on its exact digit string.
-/

namespace FloodWise

/-- The eight feature names of `mockFeatureNames`, as an enumerated type. -/
inductive Feature
  | rainfall
  | waterLevel
  | temperature
  | humidity
  | windSpeed
  | riverDischarge
  | soilMoisture
  | elevation
  deriving DecidableEq

/-- `mockFeatureNames`: the display name of each feature. -/
def featureName : Feature → String
  | .rainfall => "Rainfall (mm)"
  | .waterLevel => "Water Level (m)"
  | .temperature => "Temperature (°C)"
  | .humidity => "Humidity (%)"
  | .windSpeed => "Wind Speed (km/h)"
  | .riverDischarge => "River Discharge (m³/s)"
  | .soilMoisture => "Soil Moisture (%)"
  | .elevation => "Elevation (m)"

/-- One row of the `featureDefaults` configuration table. -/
structure FeatureConfig where
  default : ℚ
  min : ℚ
  max : ℚ
  step : ℚ

/-- The `featureDefaults` table (default, min, max, step for each feature). -/
def featureDefaults : Feature → FeatureConfig
  | .rainfall => ⟨50, 0, 300, 1⟩
  | .waterLevel => ⟨2, 0, 10, 1/10⟩
  | .temperature => ⟨25, -10, 50, 1/2⟩
  | .humidity => ⟨60, 0, 100, 1⟩
  | .windSpeed => ⟨15, 0, 150, 1⟩
  | .riverDischarge => ⟨100, 0, 1000, 5⟩
  | .soilMoisture => ⟨40, 0, 100, 1⟩
  | .elevation => ⟨50, 0, 500, 1⟩

/-- The defaults map built by the mount effect and by `handleReset`:
`defaults[name] = featureDefaults[name]?.default || 0`.  Every name of
`mockFeatureNames` is a key of `featureDefaults`, so the `|| 0` fallback is
never taken and the map is total. -/
def defaultFeatureValues : Feature → ℚ :=
  fun f => (featureDefaults f).default

/-- The Dashboard component's local state (the pieces the properties are
about; the `isLoaded` animation flag plays no role in them). -/
structure DashState where
  isSubmitting : Bool
  featureValues : Feature → ℚ
  predictionResult : Option String
  aiInsights : Option String

/-- The dashboard state right after the mount effect has filled in the
feature defaults. -/
def initDash : DashState :=
  ⟨false, defaultFeatureValues, none, none⟩

/-- `handleSliderChange(name, value)`: stores `value[0]` under `name` and
keeps every other entry.  The slider always delivers a one-element array;
`List.headI` is the translation of `value[0]`. -/
def handleSliderChange (name : Feature) (value : List ℚ) (s : DashState) :
    DashState :=
  { s with featureValues := fun m => if m = name then value.headI
                                     else s.featureValues m }

/-- `handleReset`: restores every feature to its default and clears both
prediction outputs (the success toast is pure UI and is not modelled). -/
def handleReset (s : DashState) : DashState :=
  { s with featureValues := defaultFeatureValues
           predictionResult := none
           aiInsights := none }

/-- The verdict string chosen from the pseudo-random draw `isHighRisk`. -/
def resultStr (isHighRisk : Bool) : String :=
  if isHighRisk then "🚨 High Flood Risk Level!" else "✅ Low Flood Risk Level."

/-- Decimal digit character for `d < 10` (used when printing numbers). -/
def digitChar (d : Nat) : Char :=
  if d = 0 then '0'
  else if d = 1 then '1'
  else if d = 2 then '2'
  else if d = 3 then '3'
  else if d = 4 then '4'
  else if d = 5 then '5'
  else if d = 6 then '6'
  else if d = 7 then '7'
  else if d = 8 then '8'
  else '9'

/-- Decimal digits of a natural number, most significant first. -/
def natChars (n : Nat) : List Char :=
  if _h : n < 10 then [digitChar n]
  else natChars (n / 10) ++ [digitChar (n % 10)]
decreasing_by exact Nat.div_lt_self (by omega) (by omega)

/-- Model of JavaScript number-to-string coercion for a slider value:
sign, then the numerator digits, then (for non-integral rationals) a slash
and the denominator digits.  The properties only use that its output is
drawn from the minus sign, the slash and the ten decimal digits. -/
def jsNumChars (q : ℚ) : List Char :=
  (if q.num < 0 then ['-'] else []) ++ natChars q.num.natAbs ++
    (if q.den = 1 then [] else '/' :: natChars q.den)

/-- One segment of a template literal: a fixed piece of text, or an
interpolated feature value. -/
inductive Seg
  | lit (text : String)
  | val (f : Feature)
  deriving DecidableEq

/-- Whether a segment is an interpolated feature value. -/
def Seg.isVal : Seg → Bool
  | .val _ => true
  | .lit _ => false

/-- The features a template interpolates, in order. -/
def segFeatures (segs : List Seg) : List Feature :=
  segs.filterMap fun s => match s with | .val f => some f | .lit _ => none

/-- The `insights` template literal of `handlePredict`, flattened into
segments, for each value of `isHighRisk`.  Literal text (including the
newlines and indentation of the template literal) is kept verbatim. -/
def insightsSegs (isHighRisk : Bool) : List Seg :=
  [.lit "\n      🔍 Flood Prediction Analysis:\n      \n      Based on the provided environmental data, our model has identified the following:\n      \n      "] ++
  (if isHighRisk then [Seg.lit "⚠️ Key risk factors:"]
   else [Seg.lit "✓ Favorable conditions:"]) ++
  [.lit "\n      "] ++
  (if isHighRisk then
    [.lit "• The rainfall value of ", .val .rainfall,
     .lit "mm exceeds critical thresholds.\n        • Water level at ",
     .val .waterLevel,
     .lit "m is approaching concerning levels.\n        • Current humidity levels (",
     .val .humidity,
     .lit "%) indicate saturated conditions."]
   else
    [.lit "• Rainfall at ", .val .rainfall,
     .lit "mm is below flood-triggering levels.\n        • Current water level of ",
     .val .waterLevel,
     .lit "m is within safe parameters.\n        • Temperature and humidity conditions remain favorable."]) ++
  [.lit "\n      \n      Recommendations:\n      "] ++
  (if isHighRisk then
    [Seg.lit "• Monitor precipitation forecasts closely in the next 24-48 hours.\n• Consider implementing early warning procedures.\n• Evaluate drainage systems in potentially affected areas."]
   else
    [Seg.lit "• Continue regular monitoring of environmental conditions.\n• No immediate action required based on current parameters.\n• Maintain standard preparedness protocols."]) ++
  [.lit "\n      "]

/-- Characters contributed by one segment, given the feature values. -/
def segChars (fv : Feature → ℚ) : Seg → List Char
  | .lit t => t.data
  | .val f => jsNumChars (fv f)

/-- Characters of a rendered template: the segments' characters in order. -/
def renderChars (fv : Feature → ℚ) : List Seg → List Char
  | [] => []
  | s :: rest => segChars fv s ++ renderChars fv rest

/-- The rendered `insights` string for a draw and a feature-values map. -/
def mkInsights (isHighRisk : Bool) (fv : Feature → ℚ) : String :=
  ⟨renderChars fv (insightsSegs isHighRisk)⟩

/-- The synchronous part of `handlePredict`: `setIsSubmitting(true)` before
the timer is scheduled. -/
def handlePredictStart (s : DashState) : DashState :=
  { s with isSubmitting := true }

/-- The timer callback of `handlePredict`, with the pseudo-random draw
`isHighRisk` and the feature values `fv` captured by the closure at the time
of the click: sets the verdict, the insights, and `isSubmitting := false`
(the toast notification is pure UI and is not modelled). -/
def handlePredictFire (isHighRisk : Bool) (fv : Feature → ℚ)
    (s : DashState) : DashState :=
  { s with predictionResult := some (resultStr isHighRisk)
           aiInsights := some (mkInsights isHighRisk fv)
           isSubmitting := false }

/-- One complete run of `handlePredict` from state `s`: start, then the
timer fires with draw `isHighRisk`, interpolating the feature values that
were current at the click. -/
def handlePredict (isHighRisk : Bool) (s : DashState) : DashState :=
  handlePredictFire isHighRisk s.featureValues (handlePredictStart s)

/-- What the results tab renders: the two result cards when a prediction is
present, otherwise the empty placeholder with its heading. -/
inductive ResultsView
  | panels (result : String) (insights : Option String)
  | empty (heading : String)
  deriving DecidableEq

/-- The results tab of the Dashboard render:
`predictionResult ? (result and insights cards) : (placeholder)`. -/
def resultsTab (s : DashState) : ResultsView :=
  match s.predictionResult with
  | some r => .panels r s.aiInsights
  | none => .empty "No Prediction Results Yet"

/-- The value a feature's card displays (the slider position and the mono
text under it both show `featureValues[name]`). -/
def displayedValue (s : DashState) (f : Feature) : ℚ :=
  s.featureValues f

/-- `disabled={isSubmitting}` on the Generate Prediction button. -/
def predictDisabled (s : DashState) : Bool := s.isSubmitting

/-- `disabled={isSubmitting}` on the Reset Parameters button. -/
def resetDisabled (s : DashState) : Bool := s.isSubmitting

/-- User-interface events of the dashboard. -/
inductive UiEvent
  | clickPredict
  | timerFire (isHighRisk : Bool)
  | clickReset
  | slide (f : Feature) (v : List ℚ)

/-- Dashboard state together with the pending one-shot timers; each pending
entry carries the feature values captured by its closure. -/
structure UiState where
  dash : DashState
  pending : List (Feature → ℚ)

/-- The initial UI state: mounted dashboard, no pending timer. -/
def initUi : UiState := ⟨initDash, []⟩

/-- One UI step.  A click on a disabled button, or a timer event with no
pending timer, is impossible and yields `none`. -/
def uiStep (e : UiEvent) (s : UiState) : Option UiState :=
  match e with
  | .clickPredict =>
      if predictDisabled s.dash then none
      else some ⟨handlePredictStart s.dash, s.pending ++ [s.dash.featureValues]⟩
  | .timerFire b =>
      match s.pending with
      | [] => none
      | fv :: rest => some ⟨handlePredictFire b fv s.dash, rest⟩
  | .clickReset =>
      if resetDisabled s.dash then none
      else some ⟨handleReset s.dash, s.pending⟩
  | .slide f v => some ⟨handleSliderChange f v s.dash, s.pending⟩

/-- Run a sequence of UI events from a state; impossible events are
skipped. -/
def runUi (evs : List UiEvent) (s : UiState) : UiState :=
  evs.foldl (fun st e => (uiStep e st).getD st) s

/-- An event a slider/reset interaction can deliver: a reset click, or a
slider change carrying a one-element array whose value lies within the
feature's configured `[min, max]`. -/
def ValidEv (e : UiEvent) : Prop :=
  e = .clickReset ∨
    ∃ f x, e = .slide f [x] ∧
      (featureDefaults f).min ≤ x ∧ x ≤ (featureDefaults f).max

/-- The arguments of the `console.error` call in the NotFound page's
effect. -/
def notFoundErrorArgs (pathname : String) : List String :=
  ["404 Error: User attempted to access non-existent route:", pathname]

/-- The pathnames at which the NotFound effect fires, given the pathname
observed at each render: the effect has dependency list
`[location.pathname]`, so it fires at mount and whenever the pathname
differs from the previous render's. -/
def effectFiresFrom (prev : String) : List String → List String
  | [] => []
  | p :: rest =>
      if p = prev then effectFiresFrom p rest
      else p :: effectFiresFrom p rest

/-- All effect firings over a render trace (first render is the mount). -/
def effectFires : List String → List String
  | [] => []
  | p :: rest => p :: effectFiresFrom p rest

/-- The console.error messages emitted over a render trace. -/
def notFoundConsole (renders : List String) : List (List String) :=
  (effectFires renders).map notFoundErrorArgs

/-- `needle` occurs contiguously inside `hay`. -/
def ContainsSub (needle hay : List Char) : Prop :=
  ∃ pre post, hay = pre ++ needle ++ post

/-- The marker text of the high-risk insight template. -/
def highMarker : String := "⚠️ Key risk factors:"

/-- The marker text of the low-risk insight template. -/
def lowMarker : String := "✓ Favorable conditions:"

/-- The characters `jsNumChars` can emit. -/
def numAlphabet : List Char :=
  ['-', '/', '0', '1', '2', '3', '4', '5', '6', '7', '8', '9']

/-- A segment never contributes the character `c`: a literal not containing
`c`, or any interpolated value once `c` is outside `numAlphabet`. -/
def segAvoids (c : Char) : Seg → Prop
  | .lit t => c ∉ t.data
  | .val _ => True

instance (c : Char) (s : Seg) : Decidable (segAvoids c s) := by
  cases s <;> simp only [segAvoids] <;> infer_instance

/-- Inductive invariant of the UI transition system: the number of pending
timers matches the `isSubmitting` flag, and the stored verdict is absent or
one of the two fixed strings. -/
def UiInv (s : UiState) : Prop :=
  s.pending.length = (if s.dash.isSubmitting then 1 else 0) ∧
    (s.dash.predictionResult = none ∨
     s.dash.predictionResult = some (resultStr true) ∨
     s.dash.predictionResult = some (resultStr false))

/-- Every feature value lies within its configured `[min, max]`. -/
def InRange (s : DashState) : Prop :=
  ∀ f, (featureDefaults f).min ≤ s.featureValues f ∧
    s.featureValues f ≤ (featureDefaults f).max

lemma runUi_cons (e : UiEvent) (evs : List UiEvent) (s : UiState) :
    runUi (e :: evs) s = runUi evs ((uiStep e s).getD s) := rfl

lemma uiStep_uiInv (e : UiEvent) (s : UiState) (h : UiInv s) :
    UiInv ((uiStep e s).getD s) := by
  obtain ⟨hlen, hpred⟩ := h
  cases e with
  | clickPredict =>
    by_cases hd : predictDisabled s.dash
    · simpa [uiStep, hd] using ⟨hlen, hpred⟩
    · have hsub : s.dash.isSubmitting = false := by
        simpa [predictDisabled] using hd
      refine ⟨?_, ?_⟩
      · simp [uiStep, hd, handlePredictStart, hsub] at hlen ⊢
        exact hlen
      · simpa [uiStep, hd, handlePredictStart] using hpred
  | timerFire b =>
    cases hp : s.pending with
    | nil => simpa [uiStep, hp] using ⟨hlen, hpred⟩
    | cons fv rest =>
      have hrest : rest.length = 0 := by
        rw [hp] at hlen
        by_cases hs : s.dash.isSubmitting = true <;> simp [hs] at hlen
        simp [hlen]
      refine ⟨?_, ?_⟩
      · simpa [uiStep, hp, handlePredictFire] using hrest
      · cases b
        · simp [uiStep, hp, handlePredictFire]
        · simp [uiStep, hp, handlePredictFire]
  | clickReset =>
    by_cases hd : resetDisabled s.dash
    · simpa [uiStep, hd] using ⟨hlen, hpred⟩
    · exact ⟨by simpa [uiStep, hd, handleReset] using hlen,
        by simp [uiStep, hd, handleReset]⟩
  | slide f v =>
    exact ⟨by simpa [uiStep, handleSliderChange] using hlen,
      by simpa [uiStep, handleSliderChange] using hpred⟩

lemma runUi_uiInv (evs : List UiEvent) :
    ∀ s : UiState, UiInv s → UiInv (runUi evs s) := by
  induction evs with
  | nil => intro s h; simpa [runUi] using h
  | cons e evs ih =>
    intro s h
    rw [runUi_cons]
    exact ih _ (uiStep_uiInv e s h)

lemma initUi_uiInv : UiInv initUi := by
  exact ⟨by simp [initUi, initDash], Or.inl rfl⟩

/-- C1: the verdict produced by `handlePredict` depends only on the
pseudo-random draw: two runs with the same draw but arbitrary (possibly
different) dashboard states yield the same `predictionResult`. -/
theorem verdict_independent_of_features (b : Bool) (s₁ s₂ : DashState) :
    (handlePredict b s₁).predictionResult =
      (handlePredict b s₂).predictionResult := rfl

/-- C2: every run of `handlePredict` stores exactly one of the two fixed
verdict strings, and in every reachable UI state the stored verdict is
absent or one of those two strings — no other string is ever stored. -/
theorem verdict_is_one_of_two_strings :
    (∀ (b : Bool) (s : DashState),
      (handlePredict b s).predictionResult = some "🚨 High Flood Risk Level!" ∨
      (handlePredict b s).predictionResult = some "✅ Low Flood Risk Level.") ∧
    (∀ evs : List UiEvent,
      (runUi evs initUi).dash.predictionResult = none ∨
      (runUi evs initUi).dash.predictionResult =
        some "🚨 High Flood Risk Level!" ∨
      (runUi evs initUi).dash.predictionResult =
        some "✅ Low Flood Risk Level.") := by
  constructor
  · intro b s
    cases b
    · exact Or.inr rfl
    · exact Or.inl rfl
  · intro evs
    have h := (runUi_uiInv evs initUi initUi_uiInv).2
    simpa [resultStr] using h

/-- C4: `handleReset` maps every feature to its documented default, the
eight defaults being the ones of the `featureDefaults` table. -/
theorem reset_restores_defaults (s : DashState) :
    (∀ f, (handleReset s).featureValues f = (featureDefaults f).default) ∧
    (handleReset s).featureValues .rainfall = 50 ∧
    (handleReset s).featureValues .waterLevel = 2 ∧
    (handleReset s).featureValues .temperature = 25 ∧
    (handleReset s).featureValues .humidity = 60 ∧
    (handleReset s).featureValues .windSpeed = 15 ∧
    (handleReset s).featureValues .riverDischarge = 100 ∧
    (handleReset s).featureValues .soilMoisture = 40 ∧
    (handleReset s).featureValues .elevation = 50 := by
  refine ⟨fun f => rfl, ?_, ?_, ?_, ?_, ?_, ?_, ?_, ?_⟩ <;>
    norm_num [handleReset, defaultFeatureValues, featureDefaults]

/-- C8: `handleReset` clears both prediction outputs, so the results tab
falls back to the empty "No Prediction Results Yet" placeholder. -/
theorem reset_clears_prediction (s : DashState) :
    (handleReset s).predictionResult = none ∧
    (handleReset s).aiInsights = none ∧
    resultsTab (handleReset s) = .empty "No Prediction Results Yet" :=
  ⟨rfl, rfl, rfl⟩

/-- C9: `handleSliderChange` stores the delivered value under the named
feature and leaves every other feature, the verdict, the insights and the
submission flag unchanged. -/
theorem slider_change_frame (n : Feature) (x : ℚ) (rest : List ℚ)
    (s : DashState) :
    (handleSliderChange n (x :: rest) s).featureValues n = x ∧
    (∀ m, m ≠ n →
      (handleSliderChange n (x :: rest) s).featureValues m =
        s.featureValues m) ∧
    (handleSliderChange n (x :: rest) s).predictionResult =
      s.predictionResult ∧
    (handleSliderChange n (x :: rest) s).aiInsights = s.aiInsights ∧
    (handleSliderChange n (x :: rest) s).isSubmitting = s.isSubmitting := by
  refine ⟨?_, ?_, rfl, rfl, rfl⟩
  · simp [handleSliderChange]
  · intro m hm
    simp [handleSliderChange, hm]

/-- Witness for C9 at a concrete input. -/
theorem slider_change_frame_witness :
    (handleSliderChange .rainfall [7] initDash).featureValues .rainfall = 7 ∧
    (handleSliderChange .rainfall [7] initDash).featureValues .humidity =
      initDash.featureValues .humidity :=
  ⟨(slider_change_frame .rainfall 7 [] initDash).1,
    (slider_change_frame .rainfall 7 [] initDash).2.1 .humidity (by decide)⟩

/-- C10: in every reachable UI state at most one prediction is in flight —
the number of pending timers equals one exactly while `isSubmitting` holds —
and while `isSubmitting` holds both the predict and the reset button reject
clicks (`uiStep` succeeds exactly when the button is enabled). -/
theorem at_most_one_prediction_in_flight (evs : List UiEvent) :
    (runUi evs initUi).pending.length =
      (if (runUi evs initUi).dash.isSubmitting then 1 else 0) ∧
    (runUi evs initUi).pending.length ≤ 1 ∧
    (uiStep .clickPredict (runUi evs initUi)).isSome =
      !(runUi evs initUi).dash.isSubmitting ∧
    (uiStep .clickReset (runUi evs initUi)).isSome =
      !(runUi evs initUi).dash.isSubmitting := by
  have h := (runUi_uiInv evs initUi initUi_uiInv).1
  refine ⟨h, ?_, ?_, ?_⟩
  · rw [h]
    by_cases hs : (runUi evs initUi).dash.isSubmitting = true <;> simp [hs]
  · by_cases hs : (runUi evs initUi).dash.isSubmitting = true <;>
      simp [uiStep, predictDisabled, hs]
  · by_cases hs : (runUi evs initUi).dash.isSubmitting = true <;>
      simp [uiStep, resetDisabled, hs]

lemma initDash_inRange : InRange initDash := by
  intro f
  cases f <;> exact ⟨by decide, by decide⟩

lemma uiStep_inRange (e : UiEvent) (s : UiState) (he : ValidEv e)
    (h : InRange s.dash) : InRange ((uiStep e s).getD s).dash := by
  rcases he with rfl | ⟨f, x, rfl, hlo, hhi⟩
  · by_cases hd : resetDisabled s.dash
    · simpa [uiStep, hd] using h
    · intro g
      simp [uiStep, hd, handleReset, defaultFeatureValues]
      cases g <;> exact ⟨by decide, by decide⟩
  · intro g
    by_cases hg : g = f
    · subst hg
      simpa [uiStep, handleSliderChange] using ⟨hlo, hhi⟩
    · simpa [uiStep, handleSliderChange, hg] using h g

lemma runUi_inRange (evs : List UiEvent) :
    ∀ s : UiState, (∀ e ∈ evs, ValidEv e) → InRange s.dash →
      InRange (runUi evs s).dash := by
  induction evs with
  | nil => intro s _ h; simpa [runUi] using h
  | cons e evs ih =>
    intro s hv h
    rw [runUi_cons]
    exact ih _ (fun e' he' => hv e' (List.mem_cons_of_mem e he'))
      (uiStep_inRange e s (hv e (List.mem_cons_self e evs)) h)

/-- C6: starting from the defaults, under any sequence of slider-change
events (each delivering a one-element value within the feature's configured
range) and reset clicks, every feature's stored — and displayed — value lies
within its configured `[min, max]`. -/
theorem slider_values_in_range (evs : List UiEvent)
    (hv : ∀ e ∈ evs, ValidEv e) (f : Feature) :
    (featureDefaults f).min ≤ displayedValue (runUi evs initUi).dash f ∧
    displayedValue (runUi evs initUi).dash f ≤ (featureDefaults f).max ∧
    displayedValue (runUi evs initUi).dash f =
      (runUi evs initUi).dash.featureValues f := by
  have h := runUi_inRange evs initUi hv initDash_inRange f
  exact ⟨h.1, h.2, rfl⟩

/-- Witness for C6 at a concrete event sequence. -/
theorem slider_values_in_range_witness :
    (featureDefaults Feature.rainfall).min ≤
      displayedValue
        (runUi [.slide .rainfall [299], .clickReset] initUi).dash .rainfall ∧
    displayedValue
        (runUi [.slide .rainfall [299], .clickReset] initUi).dash .rainfall ≤
      (featureDefaults Feature.rainfall).max := by
  have h := slider_values_in_range [.slide .rainfall [299], .clickReset]
    (by
      intro e he
      simp only [List.mem_cons, List.mem_singleton] at he
      rcases he with rfl | rfl | h
      · exact Or.inr ⟨.rainfall, 299, rfl, by decide, by decide⟩
      · exact Or.inl rfl
      · exact absurd h (List.not_mem_nil e))
    .rainfall
  exact ⟨h.1, h.2.1⟩

lemma mem_effectFiresFrom_self (prev r : String) (post : List String)
    (h : r ≠ prev) : r ∈ effectFiresFrom prev (r :: post) := by
  simp [effectFiresFrom, h]

lemma effectFiresFrom_change (pre : List String) :
    ∀ (prev q r : String) (post : List String), q ≠ r →
      r ∈ effectFiresFrom prev (pre ++ q :: r :: post) := by
  induction pre with
  | nil =>
    intro prev q r post hqr
    have hr := mem_effectFiresFrom_self q r post (Ne.symm hqr)
    simp only [List.nil_append, effectFiresFrom]
    by_cases hq : q = prev
    · simpa [hq] using hr
    · simp only [if_neg hq]
      exact List.mem_cons_of_mem q hr
  | cons a pre ih =>
    intro prev q r post hqr
    have hr := ih a q r post hqr
    simp only [List.cons_append, effectFiresFrom]
    by_cases ha : a = prev
    · simpa [ha] using hr
    · simp only [if_neg ha]
      exact List.mem_cons_of_mem a hr

/-- C7: over any render trace of the NotFound page, the effect fires at
mount and whenever the pathname changes, and each firing emits a
`console.error` whose arguments include the attempted pathname. -/
theorem not_found_logs_pathname (p : String) (rest : List String)
    (pre post : List String) (q r : String) :
    p ∈ effectFires (p :: rest) ∧
    notFoundErrorArgs p ∈ notFoundConsole (p :: rest) ∧
    p ∈ notFoundErrorArgs p ∧
    (q ≠ r →
      r ∈ effectFires (p :: pre ++ q :: r :: post) ∧
      notFoundErrorArgs r ∈ notFoundConsole (p :: pre ++ q :: r :: post)) := by
  refine ⟨List.mem_cons_self p _, ?_, ?_, ?_⟩
  · exact List.mem_map_of_mem notFoundErrorArgs (List.mem_cons_self p _)
  · simp [notFoundErrorArgs]
  · intro hqr
    have hr : r ∈ effectFires (p :: pre ++ q :: r :: post) := by
      simp only [List.cons_append, effectFires]
      exact List.mem_cons_of_mem p (effectFiresFrom_change pre p q r post hqr)
    exact ⟨hr, List.mem_map_of_mem notFoundErrorArgs hr⟩

/-- Witness for C7 at a concrete render trace. -/
theorem not_found_logs_pathname_witness :
    "/oops" ∈ effectFires ["/oops"] ∧
    notFoundErrorArgs "/oops" ∈ notFoundConsole ["/oops"] ∧
    "/oops" ∈ notFoundErrorArgs "/oops" ∧
    "/b" ∈ effectFires ["/oops", "/a", "/b"] ∧
    notFoundErrorArgs "/b" ∈ notFoundConsole ["/oops", "/a", "/b"] := by
  have h := not_found_logs_pathname "/oops" [] [] [] "/a" "/b"
  have hc := h.2.2.2 (by decide)
  exact ⟨h.1, h.2.1, h.2.2.1, hc.1, hc.2⟩

lemma digitChar_mem (d : Nat) : digitChar d ∈ numAlphabet := by
  unfold digitChar
  repeat' split
  all_goals decide

lemma natChars_subset (n : Nat) : ∀ c ∈ natChars n, c ∈ numAlphabet := by
  induction n using Nat.strong_induction_on with
  | _ n ih =>
    rw [natChars]
    split
    · intro c hc
      rw [List.mem_singleton] at hc
      exact hc ▸ digitChar_mem n
    · intro c hc
      rcases List.mem_append.mp hc with h | h
      · exact ih (n / 10) (Nat.div_lt_self (by omega) (by omega)) c h
      · rw [List.mem_singleton] at h
        exact h ▸ digitChar_mem (n % 10)

lemma jsNumChars_subset (q : ℚ) : ∀ c ∈ jsNumChars q, c ∈ numAlphabet := by
  intro c hc
  unfold jsNumChars at hc
  rcases List.mem_append.mp hc with h | h
  · rcases List.mem_append.mp h with h' | h'
    · split at h'
      · rw [List.mem_singleton] at h'
        exact h' ▸ (by decide)
      · exact absurd h' (List.not_mem_nil c)
    · exact natChars_subset q.num.natAbs c h'
  · split at h
    · exact absurd h (List.not_mem_nil c)
    · rcases List.mem_cons.mp h with h' | h'
      · exact h' ▸ (by decide)
      · exact natChars_subset q.den c h'

lemma containsSub_of_lit (fv : Feature → ℚ) (t : String) :
    ∀ segs : List Seg, Seg.lit t ∈ segs →
      ContainsSub t.data (renderChars fv segs) := by
  intro segs
  induction segs with
  | nil => intro h; exact absurd h (List.not_mem_nil _)
  | cons s rest ih =>
    intro h
    rcases List.mem_cons.mp h with h' | h'
    · exact ⟨[], renderChars fv rest, by simp [renderChars, ← h', segChars]⟩
    · obtain ⟨pre, post, hpp⟩ := ih h'
      exact ⟨segChars fv s ++ pre, post,
        by simp [renderChars, hpp, List.append_assoc]⟩

lemma mem_of_containsSub (c : Char) (needle hay : List Char)
    (hc : c ∈ needle) (h : ContainsSub needle hay) : c ∈ hay := by
  obtain ⟨pre, post, rfl⟩ := h
  exact List.mem_append.mpr (Or.inl (List.mem_append.mpr (Or.inr hc)))

lemma notMem_renderChars (fv : Feature → ℚ) (c : Char)
    (hnum : c ∉ numAlphabet) :
    ∀ segs : List Seg, (∀ s ∈ segs, segAvoids c s) →
      c ∉ renderChars fv segs := by
  intro segs
  induction segs with
  | nil => intro _ h; exact absurd h (List.not_mem_nil c)
  | cons s rest ih =>
    intro hav h
    rcases List.mem_append.mp h with h' | h'
    · have := hav s (List.mem_cons_self s rest)
      cases s with
      | lit t => exact this h'
      | val f => exact hnum (jsNumChars_subset (fv f) c h')
    · exact ih (fun s' hs' => hav s' (List.mem_cons_of_mem s hs')) h'

/-- C3 counterexample: in the low-risk branch the insights template
interpolates only two feature values (Rainfall and Water Level), not
three: a run of `handlePredict` with draw `false` renders that template. -/
theorem insights_two_interpolations_low_risk :
    (handlePredict false initDash).aiInsights =
      some (mkInsights false initDash.featureValues) ∧
    segFeatures (insightsSegs false) = [.rainfall, .waterLevel] ∧
    ¬((insightsSegs false).countP Seg.isVal = 3) :=
  ⟨rfl, by decide, by decide⟩

/-- C3 amended: every run of `handlePredict` renders one of the two fixed
templates chosen by the draw, interpolating feature values from the current
`featureValues` state; the high-risk template interpolates exactly three
features (Rainfall, Water Level, Humidity) and the low-risk template exactly
two (Rainfall, Water Level). -/
theorem insights_interpolation_counts (b : Bool) (s : DashState) :
    (handlePredict b s).aiInsights = some (mkInsights b s.featureValues) ∧
    segFeatures (insightsSegs true) = [.rainfall, .waterLevel, .humidity] ∧
    (insightsSegs true).countP Seg.isVal = 3 ∧
    segFeatures (insightsSegs false) = [.rainfall, .waterLevel] ∧
    (insightsSegs false).countP Seg.isVal = 2 :=
  ⟨rfl, by decide, by decide, by decide, by decide⟩

/-- C5: after a run of `handlePredict`, the stored insights string contains
the high-risk marker "⚠️ Key risk factors:" exactly when the stored verdict
is the high-risk string, and the low-risk marker "✓ Favorable conditions:"
exactly when the verdict is the low-risk string. -/
theorem insights_agree_with_verdict (b : Bool) (s : DashState) :
    ∃ ins : String, (handlePredict b s).aiInsights = some ins ∧
      (ContainsSub highMarker.data ins.data ↔
        (handlePredict b s).predictionResult =
          some "🚨 High Flood Risk Level!") ∧
      (ContainsSub lowMarker.data ins.data ↔
        (handlePredict b s).predictionResult =
          some "✅ Low Flood Risk Level.") := by
  cases b with
  | false =>
    refine ⟨mkInsights false s.featureValues, rfl, ?_, ?_⟩
    · apply iff_of_false
      · intro hcs
        exact notMem_renderChars s.featureValues '⚠' (by decide)
          (insightsSegs false) (by decide)
          (mem_of_containsSub '⚠' highMarker.data _ (by decide) hcs)
      · intro h
        exact absurd (Option.some.inj h) (by decide)
    · apply iff_of_true
      · exact containsSub_of_lit s.featureValues lowMarker
          (insightsSegs false) (by decide)
      · rfl
  | true =>
    refine ⟨mkInsights true s.featureValues, rfl, ?_, ?_⟩
    · apply iff_of_true
      · exact containsSub_of_lit s.featureValues highMarker
          (insightsSegs true) (by decide)
      · rfl
    · apply iff_of_false
      · intro hcs
        exact notMem_renderChars s.featureValues '✓' (by decide)
          (insightsSegs true) (by decide)
          (mem_of_containsSub '✓' lowMarker.data _ (by decide) hcs)
      · intro h
        exact absurd (Option.some.inj h) (by decide)

end FloodWise
